import Mathlib

/-!
Verification of the build-pipeline orchestrator in `build.py` (llvm_android).

The Python source is shallowly embedded below.  Python dicts (used for the
cmake `defines` maps) become association lists with last-write-wins update
(`dictSet` / `dictUpdate`), mirroring dict assignment and `dict.update`.
Paths are plain strings joined with `/`, mirroring `os.path.join` on the
relative components the source uses.  Glue helpers from the out-of-scope
`utils` module (`android_path`, `out_path`, `build_os_type`) are modelled as
plain string joins under a fixed checkout root, as the spec describes them.

The pipeline of `main()` is embedded in two layers: `mainPlan` computes the
sequence of externally visible pipeline items (build-engine invocations,
raised errors, log notes, packaging steps) that `main` performs for given
flags and world facts, and `runPlan` executes such a sequence against an
abstract build engine (`eng : Nat → Bool` gives the success of the n-th
engine invocation), truncating at the first failure exactly as an uncaught
`subprocess.CalledProcessError` / `RuntimeError` does.
-/

set_option autoImplicit false

namespace LlvmAndroid

/-- Join two relative path components, as `os.path.join(a, b)` does for the
relative components used throughout `build.py`. -/
def pathJoin (a b : String) : String := a ++ "/" ++ b

/-- Modelled from the spec: `utils.android_path(*args)` joins path components
under the Android source checkout root (out-of-scope glue; the root is an
arbitrary fixed name). -/
def androidPath (components : List String) : String :=
  String.intercalate "/" ("android" :: components)

/-- Modelled from the spec: `utils.out_path(*args)` joins path components
under the build output root (out-of-scope glue). -/
def outPath (components : List String) : String :=
  String.intercalate "/" ("android/out" :: components)

/-- Modelled from the spec: `utils.build_os_type()` is `linux-x86` on a Linux
host and `darwin-x86` otherwise (out-of-scope glue). -/
def buildOsType (hostIsLinux : Bool) : String :=
  if hostIsLinux then "linux-x86" else "darwin-x86"

/-- `s.startswith(p)` from Python, on the underlying character lists. -/
def strStartsWith (s p : String) : Bool := p.data.isPrefixOf s.data

/-- Characters of the current path segment after the last `/` seen. -/
def basenameChars : List Char → List Char → List Char
  | cur, [] => cur
  | cur, c :: rest =>
    if c = '/' then basenameChars [] rest else basenameChars (cur ++ [c]) rest

/-- `os.path.basename` for the slash-joined relative paths used in
`cross_compile_configs` (the final path component). -/
def pathBasename (s : String) : String := String.mk (basenameChars [] s.data)

/-! ## Python dicts as association lists -/

/-- A Python dict with string keys and values, as an insertion-ordered
association list. -/
abbrev Defines := List (String × String)

/-- Dict assignment `d[k] = v`: overwrite in place if the key is present,
otherwise append. -/
def dictSet : Defines → String → String → Defines
  | [], k, v => [(k, v)]
  | (k', v') :: rest, k, v =>
    if k' == k then (k', v) :: rest else (k', v') :: dictSet rest k v

/-- Dict lookup `d[k]` (as an `Option`). -/
def dictLookup : Defines → String → Option String
  | [], _ => none
  | (k', v') :: rest, k => if k' == k then some v' else dictLookup rest k

/-- `d.update(e)`: assign every entry of `e` into `d`, in order. -/
def dictUpdate (d : Defines) (e : Defines) : Defines :=
  e.foldl (fun acc kv => dictSet acc kv.1 kv.2) d

/-! ## Facts imported from out-of-src modules -/

/-- Values read from the external `android_version` module
(`patch_level`, `svn_revision`); they are opaque strings to the claims. -/
structure ExternalVersions where
  patchLevel : String
  svnRevision : String

/-! ## base_cmake_defines (build.py:196) -/

/-- `base_cmake_defines()` from build.py:196. -/
def baseCmakeDefines (ev : ExternalVersions) : Defines :=
  let d : Defines := []
  let d := dictSet d "CMAKE_BUILD_TYPE" "Release"
  let d := dictSet d "LLVM_ENABLE_ASSERTIONS" "OFF"
  let d := dictSet d "LLVM_ENABLE_THREADS" "OFF"
  let d := dictSet d "LLVM_LIBDIR_SUFFIX" "64"
  let d := dictSet d "LLVM_VERSION_PATCH" ev.patchLevel
  let d := dictSet d "CLANG_VERSION_PATCHLEVEL" ev.patchLevel
  let d := dictSet d "CLANG_REPOSITORY_STRING"
    "https://android.googlesource.com/toolchain/clang"
  let d := dictSet d "LLVM_REPOSITORY_STRING"
    "https://android.googlesource.com/toolchain/llvm"
  d

/-! ## build_llvm (build.py:581): the defines handed to the build engine -/

/-- The cmake defines that `build_llvm` (build.py:581) passes to
`invoke_cmake`: the base defines, five fixed assignments, then
`cmake_defines.update(extra_defines)` when extra defines are given. -/
def buildLlvmCmakeDefines (ev : ExternalVersions) (targets installDir buildName : String)
    (extraDefines : Option Defines) : Defines :=
  let d := baseCmakeDefines ev
  let d := dictSet d "CMAKE_INSTALL_PREFIX" installDir
  let d := dictSet d "LLVM_TARGETS_TO_BUILD" targets
  let d := dictSet d "LLVM_BUILD_LLVM_DYLIB" "ON"
  let d := dictSet d "CLANG_VENDOR"
    ("Android (" ++ buildName ++ " based on " ++ ev.svnRevision ++ ") ")
  let d := dictSet d "LLVM_BINUTILS_INCDIR"
    (androidPath ["toolchain/binutils/binutils-2.27/include"])
  match extraDefines with
  | none => d
  | some e => dictUpdate d e

/-! ## build_stage2 (build.py:743): the stage-2 extra defines -/

/-- The `stage2_extra_defines` dict built by `build_stage2` (build.py:743).
The `raise RuntimeError('Cannot simultaneously instrument and use profiles')`
at build.py:796 becomes the `.error` branch; it fires while the configuration
is being assembled, before `build_llvm` (and hence the build engine) is
invoked for stage 2. -/
def stage2ExtraDefines (stage1Install : String)
    (useLld enableAssertions debugBuild buildInstrumented : Bool)
    (profdataFile : Option String) (hostIsLinux hostIsDarwin : Bool) :
    Except String Defines :=
  let stage2cc := pathJoin (pathJoin stage1Install "bin") "clang"
  let stage2cxx := pathJoin (pathJoin stage1Install "bin") "clang++"
  let d : Defines := []
  let d := dictSet d "CMAKE_C_COMPILER" stage2cc
  let d := dictSet d "CMAKE_CXX_COMPILER" stage2cxx
  let d := dictSet d "LLVM_BUILD_RUNTIME" "ON"
  let d := dictSet d "LLVM_ENABLE_LIBCXX" "ON"
  let d := dictSet d "SANITIZER_ALLOW_CXXABI" "OFF"
  let d := dictSet d "COMPILER_RT_BUILD_LIBFUZZER" "OFF"
  let d := if useLld then dictSet d "LLVM_ENABLE_LLD" "ON" else d
  let d := if enableAssertions then dictSet d "LLVM_ENABLE_ASSERTIONS" "ON" else d
  let d := if debugBuild then dictSet d "CMAKE_BUILD_TYPE" "Debug" else d
  let d :=
    if buildInstrumented then
      let d := dictSet d "LLVM_BUILD_INSTRUMENTED" "ON"
      let d := dictSet d "LLVM_PROFDATA"
        (pathJoin (pathJoin stage1Install "bin") "llvm-profdata")
      let d := dictSet d "LLVM_ENABLE_LIBCXX" "OFF"
      dictSet d "LLVM_BUILD_RUNTIME" "OFF"
    else d
  let finish : Defines → Except String Defines := fun d =>
    let d :=
      if hostIsLinux then
        let d := dictSet d "LIBCXX_ENABLE_STATIC_ABI_LIBRARY" "ON"
        dictSet d "LIBCXX_ENABLE_ABI_LINKER_SCRIPT" "OFF"
      else d
    let d :=
      if hostIsDarwin then dictSet d "LLVM_BUILD_EXTERNAL_COMPILER_RT" "ON" else d
    .ok d
  match profdataFile with
  | some p =>
    if buildInstrumented then
      .error "Cannot simultaneously instrument and use profiles"
    else finish (dictSet d "LLVM_PROFDATA_FILE" p)
  | none => finish d

/-- The full cmake defines for the stage-2 build engine invocation: the
stage-2 extra defines merged over the `build_llvm` defaults
(`build_stage2` calls `build_llvm` at build.py:823). -/
def stage2FinalDefines (ev : ExternalVersions) (stage1Install stage2Install : String)
    (stage2Targets buildName : String)
    (useLld enableAssertions debugBuild buildInstrumented : Bool)
    (profdataFile : Option String) (hostIsLinux hostIsDarwin : Bool) :
    Except String Defines :=
  (stage2ExtraDefines stage1Install useLld enableAssertions debugBuild
      buildInstrumented profdataFile hostIsLinux hostIsDarwin).map
    (fun e => buildLlvmCmakeDefines ev stage2Targets stage2Install buildName (some e))

/-! ## Configuration matrix generator (cross_compile_configs, build.py:238) -/

/-- `ndk_base()` (build.py:79). -/
def ndkBase : String := androidPath ["toolchain/prebuilts/ndk", "r16"]

/-- `android_api(arch, platform)` (build.py:84).  Note that an architecture
id outside the listed 32-bit set silently receives the default `'21'`. -/
def androidApi (arch : String) (platform : Bool) : String :=
  if platform then "26"
  else if arch ∈ ["arm", "i386", "mips"] then "14"
  else "21"

/-- `ndk_path(arch, platform)` (build.py:93). -/
def ndkPathFor (arch : String) (platform : Bool) : String :=
  pathJoin (pathJoin ndkBase "platforms") ("android-" ++ androidApi arch platform)

/-- `ndk_toolchain_lib(arch, toolchain_root, host_tag)` (build.py:108). -/
def ndkToolchainLib (arch toolchainRoot hostTag : String) : String :=
  let toolchainLib := pathJoin (pathJoin (pathJoin (pathJoin ndkBase "toolchains")
    toolchainRoot) "prebuilt/linux-x86_64") hostTag
  if arch ∈ ["arm", "i386", "mips"] then pathJoin toolchainLib "lib"
  else pathJoin toolchainLib "lib64"

/-- One row of the fixed `configs` table in `cross_compile_configs`
(build.py:239): `(arch, ndk_arch, toolchain_path, llvm_triple, extra_flags)`. -/
structure CrossEntry where
  arch : String
  ndkArch : String
  toolchainPath : String
  llvmTriple : String
  extraFlags : String

/-- The fixed `configs` table of `cross_compile_configs` (build.py:239-256),
in source order. -/
def crossCompileEntries : List CrossEntry :=
  [⟨"arm", "arm", "arm/arm-linux-androideabi-4.9/arm-linux-androideabi",
    "arm-linux-android", "-march=armv7-a"⟩,
   ⟨"aarch64", "arm64", "aarch64/aarch64-linux-android-4.9/aarch64-linux-android",
    "aarch64-linux-android", ""⟩,
   ⟨"x86_64", "x86_64", "x86/x86_64-linux-android-4.9/x86_64-linux-android",
    "x86_64-linux-android", ""⟩,
   ⟨"i386", "x86", "x86/x86_64-linux-android-4.9/x86_64-linux-android",
    "i686-linux-android", "-m32"⟩,
   ⟨"mips", "mips", "mips/mips64el-linux-android-4.9/mips64el-linux-android",
    "mipsel-linux-android", "-m32"⟩,
   ⟨"mips64", "mips64", "mips/mips64el-linux-android-4.9/mips64el-linux-android",
    "mips64el-linux-android", "-m64"⟩]

/-- One generated configuration: the tuple `(arch, llvm_triple, defines,
cflags)` yielded by `cross_compile_configs`, together with the local
`ldflags` list that the loop body joins into the three linker-flag defines. -/
structure CrossConfig where
  arch : String
  llvmTriple : String
  defines : Defines
  cflags : List String
  ldflags : List String

/-- The body of the `cross_compile_configs` loop (build.py:261-327) for one
table row. -/
def crossConfigOf (osType stage2Install : String) (platform : Bool)
    (e : CrossEntry) : CrossConfig :=
  let cc := pathJoin (pathJoin stage2Install "bin") "clang"
  let cxx := pathJoin (pathJoin stage2Install "bin") "clang++"
  let toolchainRoot := androidPath ["prebuilts/gcc", osType]
  let toolchainBin := pathJoin (pathJoin toolchainRoot e.toolchainPath) "bin"
  let sysrootLibs := pathJoin (ndkPathFor e.arch platform) ("arch-" ++ e.ndkArch)
  let sysroot := pathJoin ndkBase "sysroot"
  let sysrootHeaders :=
    if e.arch == "arm" then
      pathJoin sysroot "usr/include/arm-linux-androideabi"
    else
      pathJoin (pathJoin sysroot "usr/include") e.llvmTriple
  let d : Defines := []
  let d := dictSet d "CMAKE_C_COMPILER" cc
  let d := dictSet d "CMAKE_CXX_COMPILER" cxx
  let toolchainBuiltins := pathJoin (pathJoin (pathJoin (pathJoin (pathJoin
    (pathJoin toolchainRoot e.toolchainPath) "..") "lib") "gcc")
    (pathBasename e.toolchainPath)) "4.9.x"
  let toolchainBuiltins :=
    if e.arch == "i386" then pathJoin toolchainBuiltins "32"
    else if e.arch == "mips" then pathJoin (pathJoin toolchainBuiltins "32") "mips-r2"
    else toolchainBuiltins
  let libcxxLibs := pathJoin ndkBase "sources/cxx-stl/llvm-libc++/libs"
  let libcxxLibs :=
    if e.ndkArch == "arm" then pathJoin libcxxLibs "armeabi"
    else if e.ndkArch == "arm64" then pathJoin libcxxLibs "arm64-v8a"
    else pathJoin libcxxLibs e.ndkArch
  let toolchainLib :=
    if e.ndkArch == "arm" then
      ndkToolchainLib e.arch "arm-linux-androideabi-4.9" "arm-linux-androideabi"
    else if e.ndkArch == "x86" || e.ndkArch == "x86_64" then
      ndkToolchainLib e.arch (e.ndkArch ++ "-4.9") e.llvmTriple
    else
      ndkToolchainLib e.arch (e.llvmTriple ++ "-4.9") e.llvmTriple
  let ldflags : List String :=
    ["-L" ++ toolchainBuiltins, "-Wl,-z,defs", "-L" ++ libcxxLibs,
     "-L" ++ toolchainLib, "--sysroot=" ++ sysrootLibs]
  let ldflags :=
    if e.arch != "mips" && e.arch != "mips64" then
      ldflags ++ ["-Wl,--hash-style=both"]
    else ldflags
  let d := dictSet d "CMAKE_EXE_LINKER_FLAGS" (String.intercalate " " ldflags)
  let d := dictSet d "CMAKE_SHARED_LINKER_FLAGS" (String.intercalate " " ldflags)
  let d := dictSet d "CMAKE_MODULE_LINKER_FLAGS" (String.intercalate " " ldflags)
  let d := dictSet d "CMAKE_SYSROOT" sysroot
  let d := dictSet d "CMAKE_SYSROOT_COMPILE" sysroot
  let cflags : List String :=
    ["--target=" ++ e.llvmTriple,
     "-B" ++ toolchainBin,
     "-isystem " ++ sysrootHeaders,
     "-D__ANDROID_API__=" ++ androidApi e.arch platform,
     e.extraFlags]
  { arch := e.arch, llvmTriple := e.llvmTriple, defines := d,
    cflags := cflags, ldflags := ldflags }

/-- `cross_compile_configs(stage2_install, platform)` (build.py:238): the
generated configuration sequence, one entry per fixed table row, in table
order. -/
def crossCompileConfigs (osType stage2Install : String) (platform : Bool) :
    List CrossConfig :=
  crossCompileEntries.map (crossConfigOf osType stage2Install platform)

/-! ## Per-architecture install locations (fan-out) -/

/-- The characters before the first `-`: `triple.split('-')[0]`. -/
def takeUntilDash : List Char → List Char
  | [] => []
  | c :: rest => if c = '-' then [] else c :: takeUntilDash rest

/-- `arch_from_triple(triple)` (build.py:140): first `-`-separated component,
with `i686` mapped back to `i386`. -/
def archFromTriple (triple : String) : String :=
  let arch := String.mk (takeUntilDash triple.data)
  if arch == "i686" then "i386" else arch

/-- `clang_resource_dir(version, arch)` (build.py:147). -/
def clangResourceDir (version arch : String) : String :=
  String.intercalate "/" ["lib64", "clang", version, "lib", "linux", arch]

/-- The `sarch` remapping in `build_libfuzzers` (build.py:465-467). -/
def libfuzzerSarch (arch : String) : String :=
  if arch == "i386" then "i686" else arch

/-- The static-library filename built by `build_libfuzzers` (build.py:468). -/
def libfuzzerStaticLibFilename (arch : String) : String :=
  "libclang_rt.fuzzer-" ++ libfuzzerSarch arch ++ "-android.a"

/-- The install subdirectory (relative to `stage2_install`) that
`build_libfuzzers` copies the fuzzing runtime into (build.py:470-476). -/
def libfuzzerLibSubdir (version triple : String) (ndkCxx : Bool) : String :=
  let tripleArch := archFromTriple triple
  if ndkCxx then pathJoin "runtimes_ndk_cxx" tripleArch
  else clangResourceDir version tripleArch

/-- The install subdirectory used by `build_libomp` (build.py:525-530);
identical remapping. -/
def libompLibSubdir (version triple : String) (ndkCxx : Bool) : String :=
  let tripleArch := archFromTriple triple
  if ndkCxx then pathJoin "runtimes_ndk_cxx" tripleArch
  else clangResourceDir version tripleArch

/-! ## Shared-library SONAME normalization (normalize_llvm_host_libs, build.py:877)

The library directory `<install_dir>/lib64` is modelled as a list of
`(basename, kind)` entries.  A kind is either a regular file or a symlink;
for a symlink we record whether it resolves to an existing regular file,
which is exactly what `os.path.isfile` observes (it follows links), while
`os.path.islink` observes the symlink-ness itself.  `shutil.move` of the
real file onto the SONAME path replaces whatever is at the SONAME name by
the entry of the real name.  Failures keep the Python exception semantics of
threaded state: `normalizeLibs` returns the directory contents at the moment
the error is raised, paired with the error message. -/

/-- The kind of a directory entry (see section comment). -/
inductive FKind where
  | regular : FKind
  | symlink (resolvesToFile : Bool) : FKind
deriving DecidableEq, Repr

/-- Directory contents: basenames with their kinds. -/
abbrev FS := List (String × FKind)

/-- First entry with the given name, if any. -/
def fsLookup : FS → String → Option FKind
  | [], _ => none
  | (n, k) :: rest, m => if n == m then some k else fsLookup rest m

/-- `os.path.isfile` on a name in the directory (follows symlinks). -/
def isfile (fs : FS) (n : String) : Bool :=
  match fsLookup fs n with
  | some .regular => true
  | some (.symlink r) => r
  | none => false

/-- `os.path.islink` on a name in the directory. -/
def islink (fs : FS) (n : String) : Bool :=
  match fsLookup fs n with
  | some (.symlink _) => true
  | _ => false

/-- Delete every entry with the given name. -/
def fsEraseAll (fs : FS) (n : String) : FS :=
  fs.filter (fun e => e.1 != n)

/-- `shutil.move(src, dst)` within one directory: `dst` now carries the
entry of `src`, and `src` is gone.  (Only invoked after `src` passed the
`isfile` check, so the `none` branch is unreachable in the source.) -/
def fsMove (fs : FS) (src dst : String) : FS :=
  match fsLookup fs src with
  | some k => fsEraseAll (fsEraseAll fs src) dst ++ [(dst, k)]
  | none => fs

/-- The name-stem filter of build.py:915-917: a file belongs to library
`libname` when its name starts with `libname + '.'` or `libname + '-'`
(so `libc++abi` files are not claimed by `libc++`). -/
def stemMatch (libname n : String) : Bool :=
  strStartsWith n (libname ++ ".") || strStartsWith n (libname ++ "-")

/-- The deletion loop of build.py:914-921: retain only `soname` among the
files sharing the library's name stem. -/
def deleteOthers (fs : FS) (libname soname : String) : FS :=
  fs.filter (fun e => !(stemMatch libname e.1 && e.1 != soname))

/-- The version strings the `Version` object supplies to
`normalize_llvm_host_libs`. -/
structure VersionInfo where
  shortVersion : String
  major : String

/-- One row of the `libs` table: library name and its filename template
(`libformat.format(version=x)`). -/
structure LibSpec where
  name : String
  fmt : String → String

/-- The `libLLVM` row of the linux `libs` table (build.py:879). -/
def libLLVMSpec : LibSpec := ⟨"libLLVM", fun v => "libLLVM-" ++ v ++ "svn.so"⟩

/-- The `libclang` row of the linux `libs` table (build.py:880). -/
def libclangSpec : LibSpec := ⟨"libclang", fun v => "libclang.so." ++ v⟩

/-- The `libc++` row of the linux `libs` table (build.py:881). -/
def libcxxSpec : LibSpec := ⟨"libc++", fun v => "libc++.so." ++ v⟩

/-- The `libc++abi` row of the linux `libs` table (build.py:882). -/
def libcxxabiSpec : LibSpec := ⟨"libc++abi", fun v => "libc++abi.so." ++ v⟩

/-- The `libs` table for `host == 'linux-x86'` (build.py:879-883), in source
order (the file targets Python 2, where the dict-literal iteration order is
implementation-defined; the model processes the rows in source order). -/
def linuxLibSpecs : List LibSpec :=
  [libLLVMSpec, libclangSpec, libcxxSpec, libcxxabiSpec]

/-- The `libs` table for other hosts (build.py:885-887). -/
def darwinLibSpecs : List LibSpec :=
  [⟨"libc++", fun v => "libc++." ++ v ++ ".dylib"⟩,
   ⟨"libc++abi", fun v => "libc++abi." ++ v ++ ".dylib"⟩]

/-- `getVersions(libname)` (build.py:889-893). -/
def getVersions (v : VersionInfo) (libname : String) : String × String :=
  if !(strStartsWith libname "libc++") then (v.shortVersion, v.major)
  else ("1.0", "1")

/-- The body of the `normalize_llvm_host_libs` loop (build.py:896-921) for
one library: the resulting directory contents, with the error message when a
check raises.  For `libLLVM` the source skips both checks and the move
("soname_lib doesn't exist for LLVM") and only performs the deletion loop. -/
def normalizeOne (v : VersionInfo) (lib : LibSpec) (fs : FS) : FS × Option String :=
  let sv := getVersions v lib.name
  let realLib := lib.fmt sv.1
  let sonameLib := lib.fmt sv.2
  if lib.name == "libLLVM" then
    (deleteOthers fs lib.name realLib, none)
  else
    if !(isfile fs realLib) then
      (fs, some (realLib ++ " must be a regular file"))
    else if !(islink fs sonameLib) then
      (fs, some (sonameLib ++ " must be a symlink"))
    else
      let fs' := fsMove fs realLib sonameLib
      (deleteOthers fs' lib.name sonameLib, none)

/-- The loop of `normalize_llvm_host_libs` over the library table: processed
in order, stopping at the first raised error (the exception propagates and
later entries are never reached). -/
def normalizeLibs (v : VersionInfo) : List LibSpec → FS → FS × Option String
  | [], fs => (fs, none)
  | lib :: rest, fs =>
    match normalizeOne v lib fs with
    | (fs', none) => normalizeLibs v rest fs'
    | (fs', some e) => (fs', some e)

/-- `normalize_llvm_host_libs(install_dir, host, version)` (build.py:877),
restricted to the contents of the `lib64` directory it rewrites. -/
def normalizeLlvmHostLibs (host : String) (v : VersionInfo) (fs : FS) :
    FS × Option String :=
  if host == "linux-x86" then normalizeLibs v linuxLibSpecs fs
  else normalizeLibs v darwinLibSpecs fs

/-! ## The pipeline of main() (build.py:1161) as a plan of items

`mainPlan` lists, in execution order, the externally visible pipeline items
of one `main()` run: build-engine invocations (one per `invoke_cmake`, i.e.
one configure+build+install of the External Build Engine), `logger().info`
notes emitted by the runtime fan-out loops, the raised fatal errors, the
non-engine asan artifact steps, and the packaging steps.  A raised error
ends the plan: the exception propagates out of `main` uncaught.  Whether the
engine invocations succeed is not part of the plan; `runPlan` below executes
a plan against an abstract engine. -/

/-- Identifies one build-engine invocation of the pipeline. -/
inductive StepId where
  /-- `build_stage1` (build.py:685, via `build_llvm`). -/
  | stage1 : StepId
  /-- `build_stage2` (build.py:743): records the `profdata_file` and
  `build_instrumented` arguments `main` passes at build.py:1200-1202. -/
  | stage2 (profdata : Option String) (instrumented : Bool) : StepId
  /-- one iteration of the `build_crts` loop (build.py:381). -/
  | crt (arch : String) : StepId
  /-- `build_crts_host_i686` (build.py:537). -/
  | crtHostI686 : StepId
  /-- one iteration of the `build_libfuzzers` loop (build.py:430). -/
  | libfuzzer (arch : String) (ndkCxx : Bool) : StepId
  /-- one iteration of the `build_libomp` loop (build.py:491). -/
  | libomp (arch : String) (ndkCxx : Bool) : StepId
  /-- one iteration of the `build_libcxx` loop (build.py:348) — never
  reached: the call in `build_runtimes` is commented out (build.py:842). -/
  | libcxx (arch : String) : StepId
  /-- 64-bit `build_llvm_for_windows` (build.py:1213). -/
  | windows64 : StepId
  /-- 32-bit `build_llvm_for_windows` (build.py:1223). -/
  | windows32 : StepId
deriving DecidableEq, Repr

/-- The fatal errors `main` can raise before/instead of a build step. -/
inductive BuildErr where
  /-- `RuntimeError('Profdata file does not exist for ...')` (build.py:1197). -/
  | missingProfile : BuildErr
  /-- `RuntimeError('Cannot simultaneously instrument and use profiles')`
  (build.py:796). -/
  | instrumentAndProfile : BuildErr
deriving DecidableEq, Repr

/-- One externally visible pipeline item. -/
inductive Item where
  /-- a build-engine invocation. -/
  | engine (s : StepId) : Item
  /-- a `logger().info('Building ...')` note of a fan-out loop. -/
  | note (s : StepId) : Item
  /-- a raised fatal error (ends the plan). -/
  | raiseErr (e : BuildErr) : Item
  /-- `build_asan_test` (build.py:330, creates stub files only). -/
  | asanTest : Item
  /-- `build_asan_map_files` (build.py:340). -/
  | asanMapFiles : Item
  /-- `package_toolchain` for the given host (build.py:980). -/
  | package (host : String) : Item
deriving DecidableEq, Repr

/-- The command-line arguments of `parse_args` (build.py:1087) that steer
the pipeline. -/
structure Args where
  buildName : String
  useLld : Bool
  enableAssertions : Bool
  debug : Bool
  buildInstrumented : Bool
  skipBuild : Bool
  skipPackage : Bool
  noStrip : Bool
  noBuildWindows : Bool
  checkPgoProfile : Bool

/-- Environment facts a `main` run observes: the host OS, the long version
string extracted from the installed stage 1, and whether the profile-data
file for that version exists under the profiles directory. -/
structure World where
  hostIsLinux : Bool
  longVersion : String
  profdataExists : Bool

/-- The path `pgo_profdata_file` (build.py:72) probes and returns:
`<profiles dir>/<version_str>.profdata`. -/
def pgoPath (versionStr : String) : String :=
  androidPath ["prebuilts", "clang", "host", "linux-x86", "profiles",
    versionStr ++ ".profdata"]

/-- `pgo_profdata_file(version_str)` (build.py:72): the path if the file
exists, else `None`. -/
def pgoProfdataFile (exists_ : Bool) (versionStr : String) : Option String :=
  if exists_ then some (pgoPath versionStr) else none

/-- The architecture ids of the fixed configuration matrix, in table order. -/
def matrixArchs : List String :=
  ["arm", "aarch64", "x86_64", "i386", "mips", "mips64"]

/-- The items of `build_runtimes` (build.py:832): compiler-rt per
architecture, the host-i686 compiler-rt, libfuzzer and libomp per
architecture in both platform and NDK-libc++ modes, then the asan test stubs
and asan map files.  The `build_libcxx` call is commented out at
build.py:842 and contributes nothing — in particular no log note. -/
def runtimesItems : List Item :=
  (matrixArchs.map (fun a => [Item.note (.crt a), Item.engine (.crt a)])).flatten
  ++ [Item.engine .crtHostI686]
  ++ (matrixArchs.map (fun a =>
        [Item.note (.libfuzzer a false), Item.engine (.libfuzzer a false)])).flatten
  ++ (matrixArchs.map (fun a =>
        [Item.note (.libfuzzer a true), Item.engine (.libfuzzer a true)])).flatten
  ++ (matrixArchs.map (fun a =>
        [Item.note (.libomp a false), Item.engine (.libomp a false)])).flatten
  ++ (matrixArchs.map (fun a =>
        [Item.note (.libomp a true), Item.engine (.libomp a true)])).flatten
  ++ [Item.asanTest, Item.asanMapFiles]

/-- The pipeline item sequence of one `main()` run (build.py:1161-1255).
Mirrors the control flow: when building, stage 1 first; then the profile
lookup with its two possible fatal errors (missing profile when
`--check-pgo-profile`, build.py:1196-1198; instrument-and-profile inside
`build_stage2` before its engine invocation, build.py:794-797); then stage 2,
the runtime fan-out (Linux hosts), the Windows builds, and packaging. -/
def mainPlan (args : Args) (w : World) : List Item :=
  let doBuild := !args.skipBuild
  let doPackage := !args.skipPackage
  let needWindows := w.hostIsLinux && !args.noBuildWindows
  let instrumented := w.hostIsLinux && args.buildInstrumented
  let profdata := pgoProfdataFile w.profdataExists w.longVersion
  let packItems : List Item :=
    if doPackage then
      Item.package (buildOsType w.hostIsLinux) ::
        (if needWindows then [Item.package "windows-i386", Item.package "windows-x86"]
         else [])
    else []
  if doBuild then
    Item.engine .stage1 ::
      (if profdata.isNone && args.checkPgoProfile then
        [Item.raiseErr .missingProfile]
      else if profdata.isSome && instrumented then
        [Item.raiseErr .instrumentAndProfile]
      else
        Item.engine (.stage2 profdata instrumented) ::
          ((if w.hostIsLinux then runtimesItems else [])
            ++ (if needWindows then [Item.engine .windows64, Item.engine .windows32]
                else [])
            ++ packItems))
  else packItems

/-! ## Executing a plan against an abstract build engine -/

/-- How a run ends: full success, a failing build-engine invocation
(`subprocess.check_call` raising, propagated uncaught), or one of the
pipeline's own raised errors. -/
inductive Outcome where
  | success : Outcome
  | engineFailure : Outcome
  | raised (e : BuildErr) : Outcome
deriving DecidableEq, Repr

/-- An observed pipeline event: an engine invocation together with its
success, or any other item as it happened. -/
inductive Event where
  | engine (s : StepId) (ok : Bool) : Event
  | note (s : StepId) : Event
  | raised (e : BuildErr) : Event
  | asanTest : Event
  | asanMapFiles : Event
  | package (host : String) : Event
deriving DecidableEq, Repr

/-- Execute a plan: the n-th engine invocation succeeds iff `eng n`; a
failing invocation or a raised error stops the run (no retries, nothing
afterwards is attempted). -/
def runPlan (eng : Nat → Bool) : List Item → Nat → List Event × Outcome
  | [], _ => ([], .success)
  | .engine s :: rest, n =>
    if eng n then
      let r := runPlan eng rest (n + 1)
      (.engine s true :: r.1, r.2)
    else ([.engine s false], .engineFailure)
  | .note s :: rest, n =>
    let r := runPlan eng rest n
    (.note s :: r.1, r.2)
  | .raiseErr e :: _, _ => ([.raised e], .raised e)
  | .asanTest :: rest, n =>
    let r := runPlan eng rest n
    (.asanTest :: r.1, r.2)
  | .asanMapFiles :: rest, n =>
    let r := runPlan eng rest n
    (.asanMapFiles :: r.1, r.2)
  | .package h :: rest, n =>
    let r := runPlan eng rest n
    (.package h :: r.1, r.2)

/-- One full `main()` run against an abstract engine. -/
def mainRun (args : Args) (w : World) (eng : Nat → Bool) : List Event × Outcome :=
  runPlan eng (mainPlan args w) 0

/-- The process exit status: `main` returns 0 on success; an uncaught
exception exits non-zero. -/
def exitCode : Outcome → Nat
  | .success => 0
  | _ => 1

/-- Lookup through a dict result wrapped in `Except`. -/
def exceptLookup (r : Except String Defines) (k : String) : Option String :=
  match r with
  | .ok d => dictLookup d k
  | .error _ => none

/-- Whether an item is a build-engine invocation. -/
def isEngineItem : Item → Bool
  | .engine _ => true
  | _ => false

/-- Every item after the first packaging item is a non-engine item (true of
every `main` plan: packaging comes last). -/
def noEngineAfterPack : List Item → Bool
  | [] => true
  | .package _ :: rest => rest.all (fun i => !(isEngineItem i))
  | _ :: rest => noEngineAfterPack rest

/-- Whether an event is a successful step (a failed engine invocation is the
only non-ok event). -/
def okEvent : Event → Bool
  | .engine _ ok => ok
  | _ => true

/-- Whether an item belongs to the (never executed) libcxx build. -/
def mentionsLibcxx : Item → Bool
  | .engine (.libcxx _) => true
  | .note (.libcxx _) => true
  | _ => false

/-! ## General lemmas about the dict operations -/

theorem dictLookup_dictSet (d : Defines) (k v k' : String) :
    dictLookup (dictSet d k v) k' = if k = k' then some v else dictLookup d k' := by
  induction d with
  | nil => simp [dictSet, dictLookup]
  | cons kv rest ih =>
    obtain ⟨k₀, v₀⟩ := kv
    simp only [dictSet, dictLookup]
    by_cases h0 : k₀ = k
    · subst h0
      by_cases h1 : k₀ = k' <;> simp [dictLookup, h1]
    · by_cases h1 : k₀ = k'
      · subst h1
        simp [dictLookup, h0, Ne.symm h0]
      · simp [dictLookup, h0, h1, ih]

theorem dictLookup_eq_none_of_notMem (e : Defines) (k : String)
    (h : k ∉ e.map Prod.fst) : dictLookup e k = none := by
  induction e with
  | nil => rfl
  | cons kv rest ih =>
    simp only [List.map_cons, List.mem_cons] at h
    push_neg at h
    simp [dictLookup, Ne.symm h.1, ih h.2]

theorem mem_keys_of_dictLookup_isSome (e : Defines) (k : String)
    (h : (dictLookup e k).isSome) : k ∈ e.map Prod.fst := by
  induction e with
  | nil => simp [dictLookup] at h
  | cons kv rest ih =>
    simp only [dictLookup] at h
    by_cases h0 : kv.1 = k
    · simp [h0]
    · simp only [List.map_cons, List.mem_cons]
      right
      refine ih ?_
      simpa [h0] using h

theorem dictLookup_dictUpdate (d e : Defines) (he : (e.map Prod.fst).Nodup)
    (k : String) :
    dictLookup (dictUpdate d e) k =
      (dictLookup e k).elim (dictLookup d k) some := by
  induction e generalizing d with
  | nil => simp [dictUpdate, dictLookup]
  | cons kv rest ih =>
    obtain ⟨k₀, v₀⟩ := kv
    simp only [List.map_cons, List.nodup_cons] at he
    have step : dictUpdate d ((k₀, v₀) :: rest) = dictUpdate (dictSet d k₀ v₀) rest := rfl
    rw [step, ih _ he.2]
    by_cases h : k₀ = k
    · subst h
      have : dictLookup rest k₀ = none := dictLookup_eq_none_of_notMem _ _ he.1
      simp [dictLookup, this, dictLookup_dictSet]
    · simp [dictLookup, h, dictLookup_dictSet]

/-! ## General lemmas about running a plan -/

theorem engineItem_mem_of_engineEvent_mem (eng : Nat → Bool) (p : List Item)
    (n : Nat) (s : StepId) (ok : Bool)
    (h : Event.engine s ok ∈ (runPlan eng p n).1) : Item.engine s ∈ p := by
  induction p generalizing n with
  | nil => simp [runPlan] at h
  | cons it rest ih =>
    cases it with
    | engine s' =>
      by_cases h0 : eng n
      · simp only [runPlan, h0, if_true, List.mem_cons] at h
        rcases h with h | h
        · obtain ⟨rfl, rfl⟩ : s' = s ∧ true = ok := by
            injection h with h1 h2; exact ⟨h1.symm, h2.symm⟩
          exact List.mem_cons_self _ _
        · exact List.mem_cons_of_mem _ (ih _ h)
      · simp only [runPlan, h0, if_false, Bool.false_eq_true, List.mem_singleton] at h
        injection h with h1 h2
        subst h1
        exact List.mem_cons_self _ _
    | note s' =>
      simp only [runPlan, List.mem_cons] at h
      rcases h with h | h
      · exact absurd h (by simp)
      · exact List.mem_cons_of_mem _ (ih _ h)
    | raiseErr e =>
      simp only [runPlan, List.mem_singleton] at h
      exact absurd h (by simp)
    | asanTest =>
      simp only [runPlan, List.mem_cons] at h
      rcases h with h | h
      · exact absurd h (by simp)
      · exact List.mem_cons_of_mem _ (ih _ h)
    | asanMapFiles =>
      simp only [runPlan, List.mem_cons] at h
      rcases h with h | h
      · exact absurd h (by simp)
      · exact List.mem_cons_of_mem _ (ih _ h)
    | package hh =>
      simp only [runPlan, List.mem_cons] at h
      rcases h with h | h
      · exact absurd h (by simp)
      · exact List.mem_cons_of_mem _ (ih _ h)

theorem no_engineFailure_of_no_engineItems (eng : Nat → Bool) (p : List Item)
    (n : Nat) (hp : p.all (fun i => !(isEngineItem i)) = true) :
    (runPlan eng p n).2 ≠ .engineFailure := by
  induction p generalizing n with
  | nil => simp [runPlan]
  | cons it rest ih =>
    simp only [List.all_cons, Bool.and_eq_true] at hp
    cases it with
    | engine s => simp [isEngineItem] at hp
    | note s => simpa [runPlan] using ih _ hp.2
    | raiseErr e => simp [runPlan]
    | asanTest => simpa [runPlan] using ih _ hp.2
    | asanMapFiles => simpa [runPlan] using ih _ hp.2
    | package hh => simpa [runPlan] using ih _ hp.2

theorem no_package_in_failed_run (eng : Nat → Bool) (p : List Item) (n : Nat)
    (hp : noEngineAfterPack p = true)
    (hfail : (runPlan eng p n).2 = .engineFailure) :
    ∀ h, Event.package h ∉ (runPlan eng p n).1 := by
  induction p generalizing n with
  | nil => simp [runPlan] at hfail
  | cons it rest ih =>
    cases it with
    | engine s =>
      by_cases h0 : eng n
      · simp only [runPlan, h0, if_true] at hfail ⊢
        intro h hmem
        simp only [List.mem_cons] at hmem
        rcases hmem with hmem | hmem
        · exact absurd hmem (by simp)
        · exact ih _ hp hfail h hmem
      · simp only [runPlan, h0, if_false] at hfail ⊢
        intro h hmem
        simp at hmem
    | note s =>
      simp only [runPlan] at hfail ⊢
      intro h hmem
      simp only [List.mem_cons] at hmem
      rcases hmem with hmem | hmem
      · exact absurd hmem (by simp)
      · exact ih _ hp hfail h hmem
    | raiseErr e => simp [runPlan] at hfail
    | asanTest =>
      simp only [runPlan] at hfail ⊢
      intro h hmem
      simp only [List.mem_cons] at hmem
      rcases hmem with hmem | hmem
      · exact absurd hmem (by simp)
      · exact ih _ hp hfail h hmem
    | asanMapFiles =>
      simp only [runPlan] at hfail ⊢
      intro h hmem
      simp only [List.mem_cons] at hmem
      rcases hmem with hmem | hmem
      · exact absurd hmem (by simp)
      · exact ih _ hp hfail h hmem
    | package hh =>
      refine absurd hfail (no_engineFailure_of_no_engineItems eng _ n ?_)
      simp only [noEngineAfterPack] at hp
      simp only [List.all_cons, Bool.and_eq_true]
      exact ⟨by simp [isEngineItem], hp⟩

theorem failed_run_decomp (eng : Nat → Bool) (p : List Item) (n : Nat)
    (hfail : (runPlan eng p n).2 = .engineFailure) :
    ∃ t₀ s, (runPlan eng p n).1 = t₀ ++ [Event.engine s false] ∧
      ∀ e ∈ t₀, okEvent e = true := by
  induction p generalizing n with
  | nil => simp [runPlan] at hfail
  | cons it rest ih =>
    cases it with
    | engine s =>
      by_cases h0 : eng n
      · simp only [runPlan, h0, if_true] at hfail ⊢
        obtain ⟨t₀, s', heq, hok⟩ := ih _ hfail
        refine ⟨Event.engine s true :: t₀, s', by simp [heq], ?_⟩
        intro e he
        rcases List.mem_cons.mp he with rfl | he
        · rfl
        · exact hok e he
      · exact ⟨[], s, by simp [runPlan, h0], by simp⟩
    | note s =>
      simp only [runPlan] at hfail ⊢
      obtain ⟨t₀, s', heq, hok⟩ := ih _ hfail
      refine ⟨Event.note s :: t₀, s', by simp [heq], ?_⟩
      intro e he
      rcases List.mem_cons.mp he with rfl | he
      · rfl
      · exact hok e he
    | raiseErr e => simp [runPlan] at hfail
    | asanTest =>
      simp only [runPlan] at hfail ⊢
      obtain ⟨t₀, s', heq, hok⟩ := ih _ hfail
      refine ⟨Event.asanTest :: t₀, s', by simp [heq], ?_⟩
      intro e he
      rcases List.mem_cons.mp he with rfl | he
      · rfl
      · exact hok e he
    | asanMapFiles =>
      simp only [runPlan] at hfail ⊢
      obtain ⟨t₀, s', heq, hok⟩ := ih _ hfail
      refine ⟨Event.asanMapFiles :: t₀, s', by simp [heq], ?_⟩
      intro e he
      rcases List.mem_cons.mp he with rfl | he
      · rfl
      · exact hok e he
    | package hh =>
      simp only [runPlan] at hfail ⊢
      obtain ⟨t₀, s', heq, hok⟩ := ih _ hfail
      refine ⟨Event.package hh :: t₀, s', by simp [heq], ?_⟩
      intro e he
      rcases List.mem_cons.mp he with rfl | he
      · rfl
      · exact hok e he

/-! ## Shape lemmas about the main plan -/

theorem mainPlan_noEngineAfterPack (args : Args) (w : World) :
    noEngineAfterPack (mainPlan args w) = true := by
  obtain ⟨bn, lld, ea, dbg, bi, sb, sp, ns, nbw, cpp⟩ := args
  obtain ⟨lin, lv, pe⟩ := w
  cases sb <;> cases sp <;> cases lin <;> cases nbw <;> cases pe <;>
    cases bi <;> cases cpp <;> rfl

theorem mainPlan_skipBuild_no_engine (args : Args) (w : World)
    (h : args.skipBuild = true) :
    (mainPlan args w).all (fun i => !(isEngineItem i)) = true := by
  obtain ⟨bn, lld, ea, dbg, bi, sb, sp, ns, nbw, cpp⟩ := args
  obtain ⟨lin, lv, pe⟩ := w
  cases sb
  · simp at h
  · cases sp <;> cases lin <;> cases nbw <;> rfl

theorem mainPlan_build_head (args : Args) (w : World) (h : args.skipBuild = false) :
    ∃ rest, mainPlan args w = Item.engine .stage1 :: rest := by
  obtain ⟨bn, lld, ea, dbg, bi, sb, sp, ns, nbw, cpp⟩ := args
  cases sb
  · exact ⟨_, rfl⟩
  · simp at h

theorem mainPlan_package_head (args : Args) (w : World) (hb : args.skipBuild = true)
    (hp : args.skipPackage = false) :
    ∃ rest, mainPlan args w = Item.package (buildOsType w.hostIsLinux) :: rest := by
  obtain ⟨bn, lld, ea, dbg, bi, sb, sp, ns, nbw, cpp⟩ := args
  cases sb
  · simp at hb
  · cases sp
    · exact ⟨_, rfl⟩
    · simp at hp

theorem stage2_item_shape (args : Args) (w : World) :
    ∀ pd instr, Item.engine (.stage2 pd instr) ∈ mainPlan args w →
      pd = pgoProfdataFile w.profdataExists w.longVersion ∧
      instr = (w.hostIsLinux && args.buildInstrumented) := by
  obtain ⟨bn, lld, ea, dbg, bi, sb, sp, ns, nbw, cpp⟩ := args
  obtain ⟨lin, lv, pe⟩ := w
  intro pd instr h
  cases sb <;> cases sp <;> cases lin <;> cases nbw <;> cases pe <;>
    cases bi <;> cases cpp <;>
    simp_all [mainPlan, runtimesItems, matrixArchs, buildOsType, pgoProfdataFile]

theorem mainPlan_no_libcxx (args : Args) (w : World) :
    (mainPlan args w).all (fun i => !(mentionsLibcxx i)) = true := by
  obtain ⟨bn, lld, ea, dbg, bi, sb, sp, ns, nbw, cpp⟩ := args
  obtain ⟨lin, lv, pe⟩ := w
  cases sb <;> cases sp <;> cases lin <;> cases nbw <;> cases pe <;>
    cases bi <;> cases cpp <;> rfl

theorem mainPlan_instrument_profile (args : Args) (w : World)
    (hsb : args.skipBuild = false) (hpe : w.profdataExists = true)
    (hlin : w.hostIsLinux = true) (hbi : args.buildInstrumented = true) :
    mainPlan args w = [.engine .stage1, .raiseErr .instrumentAndProfile] := by
  obtain ⟨bn, lld, ea, dbg, bi, sb, sp, ns, nbw, cpp⟩ := args
  obtain ⟨lin, lv, pe⟩ := w
  simp only at hsb hpe hlin hbi
  subst hsb hpe hlin hbi
  rfl

theorem mainPlan_missing_profile (args : Args) (w : World)
    (hsb : args.skipBuild = false) (hpe : w.profdataExists = false)
    (hcpp : args.checkPgoProfile = true) :
    mainPlan args w = [.engine .stage1, .raiseErr .missingProfile] := by
  obtain ⟨bn, lld, ea, dbg, bi, sb, sp, ns, nbw, cpp⟩ := args
  obtain ⟨lin, lv, pe⟩ := w
  simp only at hsb hpe hcpp
  subst hsb hpe hcpp
  rfl

theorem mainPlan_stage2_none (args : Args) (w : World)
    (hsb : args.skipBuild = false) (hpe : w.profdataExists = false)
    (hcpp : args.checkPgoProfile = false) :
    ∃ rest, mainPlan args w = Item.engine .stage1 ::
      Item.engine (.stage2 none (w.hostIsLinux && args.buildInstrumented)) :: rest := by
  obtain ⟨bn, lld, ea, dbg, bi, sb, sp, ns, nbw, cpp⟩ := args
  obtain ⟨lin, lv, pe⟩ := w
  simp only at hsb hpe hcpp
  subst hsb hpe hcpp
  exact ⟨_, rfl⟩

/-! ## String facts used by the SONAME-normalization proofs -/

theorem dashL_ne_hashFlag (s : String) : ("-L" ++ s) ≠ "-Wl,--hash-style=both" := by
  intro h
  have h2 := congrArg String.data h
  rw [String.data_append] at h2
  simp at h2

theorem sysroot_ne_hashFlag (s : String) :
    ("--sysroot=" ++ s) ≠ "-Wl,--hash-style=both" := by
  intro h
  have h2 := congrArg String.data h
  rw [String.data_append] at h2
  simp at h2

theorem stemMatch_libLLVM_clangName (s : String) :
    stemMatch "libLLVM" ("libclang.so." ++ s) = false := by
  simp [stemMatch, strStartsWith, String.data_append, List.isPrefixOf]

theorem stemMatch_libclang_clangName (s : String) :
    stemMatch "libclang" ("libclang.so." ++ s) = true := by
  simp [stemMatch, strStartsWith, String.data_append, List.isPrefixOf]

theorem stemMatch_libcxx_clangName (s : String) :
    stemMatch "libc++" ("libclang.so." ++ s) = false := by
  simp [stemMatch, strStartsWith, String.data_append, List.isPrefixOf]

theorem stemMatch_libcxxabi_clangName (s : String) :
    stemMatch "libc++abi" ("libclang.so." ++ s) = false := by
  simp [stemMatch, strStartsWith, String.data_append, List.isPrefixOf]

theorem clangName_bne_cxxReal (s : String) :
    (("libclang.so." ++ s) != "libc++.so.1.0") = true := by
  rw [bne_iff_ne]
  intro h
  have h2 := congrArg String.data h
  rw [String.data_append] at h2
  simp at h2

theorem clangName_bne_cxxSoname (s : String) :
    (("libclang.so." ++ s) != "libc++.so.1") = true := by
  rw [bne_iff_ne]
  intro h
  have h2 := congrArg String.data h
  rw [String.data_append] at h2
  simp at h2

theorem clangName_bne_abiReal (s : String) :
    (("libclang.so." ++ s) != "libc++abi.so.1.0") = true := by
  rw [bne_iff_ne]
  intro h
  have h2 := congrArg String.data h
  rw [String.data_append] at h2
  simp at h2

theorem clangName_bne_abiSoname (s : String) :
    (("libclang.so." ++ s) != "libc++abi.so.1") = true := by
  rw [bne_iff_ne]
  intro h
  have h2 := congrArg String.data h
  rw [String.data_append] at h2
  simp at h2

/-! ## General lemmas about the directory model -/

theorem fsLookup_filter (fs : FS) (p : String × FKind → Bool) (n : String)
    (hp : ∀ k, p (n, k) = true) :
    fsLookup (fs.filter p) n = fsLookup fs n := by
  induction fs with
  | nil => rfl
  | cons e rest ih =>
    obtain ⟨m, k⟩ := e
    by_cases hm : m = n
    · subst hm
      rw [List.filter_cons, hp k]
      simp [fsLookup]
    · rw [List.filter_cons]
      by_cases hpk : p (m, k) = true
      · simp only [hpk, if_true]
        simp [fsLookup, hm, ih]
      · simp only [Bool.not_eq_true] at hpk
        simp only [hpk]
        simp only [Bool.false_eq_true, if_false]
        rw [ih]
        simp [fsLookup, hm]

theorem mem_of_mem_deleteOthers_fsMove (g : FS) (r s L s' : String)
    (e : String × FKind) (h : e ∈ deleteOthers (fsMove g r s) L s') :
    e ∈ g ∨ e.1 = s := by
  unfold deleteOthers fsMove at h
  cases hl : fsLookup g r with
  | none =>
    rw [hl] at h
    exact Or.inl (List.mem_of_mem_filter h)
  | some k =>
    rw [hl] at h
    have h2 := List.mem_of_mem_filter h
    rcases List.mem_append.mp h2 with h3 | h3
    · exact Or.inl (List.mem_of_mem_filter (List.mem_of_mem_filter h3))
    · right
      rcases List.mem_singleton.mp h3 with rfl
      rfl

theorem mem_deleteOthers_fsMove_of (g : FS) (r s L s' : String)
    (e : String × FKind) (h : e ∈ g) (hr : (e.1 != r) = true)
    (hs : (e.1 != s) = true)
    (hp : (!(stemMatch L e.1 && e.1 != s')) = true) :
    e ∈ deleteOthers (fsMove g r s) L s' := by
  unfold deleteOthers fsMove
  cases hl : fsLookup g r with
  | none => exact List.mem_filter.mpr ⟨h, hp⟩
  | some k =>
    refine List.mem_filter.mpr ⟨?_, hp⟩
    refine List.mem_append.mpr (Or.inl ?_)
    exact List.mem_filter.mpr ⟨List.mem_filter.mpr ⟨h, hr⟩, hs⟩

theorem soname_mem_after_move (g : FS) (r s L : String)
    (hf : isfile g r = true) :
    ∃ k, (s, k) ∈ deleteOthers (fsMove g r s) L s := by
  unfold isfile at hf
  cases hl : fsLookup g r with
  | none => rw [hl] at hf; simp at hf
  | some k =>
    refine ⟨k, ?_⟩
    unfold deleteOthers fsMove
    rw [hl]
    refine List.mem_filter.mpr ⟨?_, by simp⟩
    exact List.mem_append.mpr (Or.inr (List.mem_singleton.mpr rfl))

theorem allMatch_after_move (g : FS) (r s L : String)
    (e : String × FKind) (h : e ∈ deleteOthers (fsMove g r s) L s)
    (hm : stemMatch L e.1 = true) : e.1 = s := by
  unfold deleteOthers at h
  have hp := List.of_mem_filter h
  rw [hm] at hp
  simp only [Bool.true_and, Bool.not_eq_true', bne_eq_false_iff_eq] at hp
  exact hp

/-! ## Stepping lemmas for the normalization loop -/

theorem normalizeLibs_cons_ok (v : VersionInfo) (lib : LibSpec) (rest : List LibSpec)
    (fs fs₁ : FS) (h : normalizeOne v lib fs = (fs₁, none)) :
    normalizeLibs v (lib :: rest) fs = normalizeLibs v rest fs₁ := by
  simp [normalizeLibs, h]

theorem normalizeLibs_cons_err (v : VersionInfo) (lib : LibSpec) (rest : List LibSpec)
    (fs fs₁ : FS) (e : String) (h : normalizeOne v lib fs = (fs₁, some e)) :
    normalizeLibs v (lib :: rest) fs = (fs₁, some e) := by
  simp [normalizeLibs, h]

theorem normalizeOne_ok_elim (v : VersionInfo) (lib : LibSpec) (fs fs₂ : FS)
    (hname : (lib.name == "libLLVM") = false)
    (h : normalizeOne v lib fs = (fs₂, none)) :
    isfile fs (lib.fmt (getVersions v lib.name).1) = true ∧
    islink fs (lib.fmt (getVersions v lib.name).2) = true ∧
    fs₂ = deleteOthers (fsMove fs (lib.fmt (getVersions v lib.name).1)
      (lib.fmt (getVersions v lib.name).2)) lib.name
      (lib.fmt (getVersions v lib.name).2) := by
  unfold normalizeOne at h
  rw [hname] at h
  by_cases hf : isfile fs (lib.fmt (getVersions v lib.name).1)
  · by_cases hl : islink fs (lib.fmt (getVersions v lib.name).2)
    · simp only [hf, hl, Bool.not_true, Bool.false_eq_true, if_false] at h
      exact ⟨hf, hl, (Prod.mk.injEq .. ▸ h).1.symm⟩
    · simp only [Bool.not_eq_true] at hl
      simp [hf, hl] at h
  · simp only [Bool.not_eq_true] at hf
    simp [hf] at h

theorem normalizeLibs_linux_ok_elim (v : VersionInfo) (fs fs' : FS)
    (h : normalizeLibs v linuxLibSpecs fs = (fs', none)) :
    ∃ fs₂ fs₃,
      normalizeOne v libclangSpec
        (deleteOthers fs "libLLVM" ("libLLVM-" ++ v.shortVersion ++ "svn.so"))
        = (fs₂, none) ∧
      normalizeOne v libcxxSpec fs₂ = (fs₃, none) ∧
      normalizeOne v libcxxabiSpec fs₃ = (fs', none) := by
  have h1 : normalizeOne v libLLVMSpec fs =
      (deleteOthers fs "libLLVM" ("libLLVM-" ++ v.shortVersion ++ "svn.so"), none) := rfl
  set fs₁ := deleteOthers fs "libLLVM" ("libLLVM-" ++ v.shortVersion ++ "svn.so") with hfs₁
  rw [show linuxLibSpecs = libLLVMSpec :: libclangSpec :: libcxxSpec :: [libcxxabiSpec]
    from rfl, normalizeLibs_cons_ok v _ _ _ _ h1] at h
  cases h2 : normalizeOne v libclangSpec fs₁ with
  | mk fs₂ o₂ =>
    cases o₂ with
    | some e => rw [normalizeLibs_cons_err v _ _ _ _ _ h2] at h; simp at h
    | none =>
      rw [normalizeLibs_cons_ok v _ _ _ _ h2] at h
      cases h3 : normalizeOne v libcxxSpec fs₂ with
      | mk fs₃ o₃ =>
        cases o₃ with
        | some e => rw [normalizeLibs_cons_err v _ _ _ _ _ h3] at h; simp at h
        | none =>
          rw [normalizeLibs_cons_ok v _ _ _ _ h3] at h
          cases h4 : normalizeOne v libcxxabiSpec fs₃ with
          | mk fs₄ o₄ =>
            cases o₄ with
            | some e => rw [normalizeLibs_cons_err v _ _ _ _ _ h4] at h; simp at h
            | none =>
              rw [normalizeLibs_cons_ok v _ _ _ _ h4] at h
              simp only [normalizeLibs] at h
              rw [Prod.mk.injEq] at h
              refine ⟨fs₂, fs₃, ?_, ?_, ?_⟩
              · rfl
              · exact h3
              · rw [← h.1]
                exact h4

/-! ## Claim theorems -/

/-- C1 (counterexample): requesting a stage-2 build with both the
instrumented mode and an existing profile-data file does raise the
configuration error, but NOT before every build engine invocation: on a
Linux host with `--build-instrumented` and an existing profdata file, the
run's trace contains the stage-1 engine invocation (which succeeded) before
the error is raised, so the number of engine calls is not zero. -/
theorem c1_counterexample :
    (mainRun ⟨"dev", false, false, false, true, false, false, false, false, false⟩
        ⟨true, "7.0.2", true⟩ (fun _ => true)).2 = .raised .instrumentAndProfile
    ∧ Event.engine .stage1 true ∈
      (mainRun ⟨"dev", false, false, false, true, false, false, false, false, false⟩
        ⟨true, "7.0.2", true⟩ (fun _ => true)).1 := by
  constructor
  · rfl
  · decide

/-- C1 (amended): if the stage-2 build is requested with both the
instrumented mode and a profile-guided mode (an existing profdata file
together with `--build-instrumented` on a Linux host), the pipeline raises
the configuration error before any STAGE-2 build engine invocation — the
plan after stage 1 is exactly the raised error, no stage-2 engine item or
event ever occurs, the run fails with that error once stage 1 succeeded,
and `build_stage2` itself rejects the combination while assembling its
configuration, before calling `build_llvm`.  (Stage 1 has already been
built at that point; see the counterexample.) -/
theorem c1_instrument_and_profile_conflict (args : Args) (w : World)
    (hsb : args.skipBuild = false) (hpe : w.profdataExists = true)
    (hlin : w.hostIsLinux = true) (hbi : args.buildInstrumented = true) :
    mainPlan args w = [.engine .stage1, .raiseErr .instrumentAndProfile]
    ∧ (∀ pd instr, Item.engine (.stage2 pd instr) ∉ mainPlan args w)
    ∧ (∀ eng pd instr ok,
        Event.engine (.stage2 pd instr) ok ∉ (mainRun args w eng).1)
    ∧ (∀ eng, eng 0 = true →
        (mainRun args w eng).2 = .raised .instrumentAndProfile ∧
        (mainRun args w eng).1 =
          [Event.engine .stage1 true, Event.raised .instrumentAndProfile])
    ∧ (∀ s1 lld ea dbg lin dar p,
        stage2ExtraDefines s1 lld ea dbg true (some p) lin dar =
          .error "Cannot simultaneously instrument and use profiles") := by
  have hplan := mainPlan_instrument_profile args w hsb hpe hlin hbi
  refine ⟨hplan, ?_, ?_, ?_, ?_⟩
  · intro pd instr h
    rw [hplan] at h
    simp at h
  · intro eng pd instr ok h
    have hmem := engineItem_mem_of_engineEvent_mem eng _ 0 _ _ h
    rw [hplan] at hmem
    simp at hmem
  · intro eng h0
    unfold mainRun
    rw [hplan]
    simp [runPlan, h0]
  · intro s1 lld ea dbg lin dar p
    rfl

/-- C1 (witness): the amended statement applied to a concrete run: all four
toggles set as required, engine always succeeding. -/
theorem c1_instrument_and_profile_conflict_witness :
    (mainRun ⟨"dev", true, false, false, true, false, false, false, false, false⟩
        ⟨true, "8.0.1", true⟩ (fun _ => true)).2 = .raised .instrumentAndProfile := by
  have h := c1_instrument_and_profile_conflict
    ⟨"dev", true, false, false, true, false, false, false, false, false⟩
    ⟨true, "8.0.1", true⟩ rfl rfl rfl rfl
  exact (h.2.2.2.1 (fun _ => true) rfl).1

/-- C2: after stage 1, the looked-up profile file is
`<long version>.profdata` in the profiles directory, and on every build run
where it is absent: with `--check-pgo-profile` the pipeline raises the
missing-profile error right after stage 1 — no stage-2 item is planned, no
stage-2 engine event can occur, and once stage 1 succeeds the run fails
with `missingProfile`; without the flag, stage 2 is planned (and built)
with `profdata = none`, and every stage-2 engine item of the plan carries
`none`. -/
theorem c2_profile_resolution (args : Args) (w : World)
    (hsb : args.skipBuild = false) (hpe : w.profdataExists = false) :
    (∀ exists_ vstr, pgoProfdataFile exists_ vstr =
      if exists_ then some (pgoPath vstr) else none)
    ∧ (args.checkPgoProfile = true →
      Item.raiseErr .missingProfile ∈ mainPlan args w
      ∧ (∀ pd instr, Item.engine (.stage2 pd instr) ∉ mainPlan args w)
      ∧ (∀ eng pd instr ok,
          Event.engine (.stage2 pd instr) ok ∉ (mainRun args w eng).1)
      ∧ (∀ eng, eng 0 = true → (mainRun args w eng).2 = .raised .missingProfile))
    ∧ (args.checkPgoProfile = false →
      Item.engine (.stage2 none (w.hostIsLinux && args.buildInstrumented))
        ∈ mainPlan args w
      ∧ (∀ pd instr, Item.engine (.stage2 pd instr) ∈ mainPlan args w →
          pd = none)) := by
  refine ⟨fun _ _ => rfl, ?_, ?_⟩
  · intro hcpp
    have hplan := mainPlan_missing_profile args w hsb hpe hcpp
    refine ⟨by rw [hplan]; simp, ?_, ?_, ?_⟩
    · intro pd instr h
      rw [hplan] at h
      simp at h
    · intro eng pd instr ok h
      have hmem := engineItem_mem_of_engineEvent_mem eng _ 0 _ _ h
      rw [hplan] at hmem
      simp at hmem
    · intro eng h0
      unfold mainRun
      rw [hplan]
      simp [runPlan, h0]
  · intro hcpp
    obtain ⟨rest, hplan⟩ := mainPlan_stage2_none args w hsb hpe hcpp
    constructor
    · rw [hplan]
      simp
    · intro pd instr h
      have := stage2_item_shape args w pd instr h
      rw [hpe] at this
      simpa [pgoProfdataFile] using this.1

/-- C2 (witness): the theorem applied to two concrete runs without a
profile file: one with `--check-pgo-profile` (the run raises the
missing-profile error) and one without (the plan carries a stage-2 build
with no profile data). -/
theorem c2_profile_resolution_witness :
    (mainRun ⟨"dev", false, false, false, false, false, false, false, false, true⟩
        ⟨true, "7.0.2", false⟩ (fun _ => true)).2 = .raised .missingProfile
    ∧ Item.engine (.stage2 none false) ∈
      mainPlan ⟨"dev", false, false, false, false, false, false, false, false, false⟩
        ⟨true, "7.0.2", false⟩ := by
  constructor
  · have h := c2_profile_resolution
      ⟨"dev", false, false, false, false, false, false, false, false, true⟩
      ⟨true, "7.0.2", false⟩ rfl rfl
    exact (h.2.1 rfl).2.2.2 (fun _ => true) rfl
  · have h := c2_profile_resolution
      ⟨"dev", false, false, false, false, false, false, false, false, false⟩
      ⟨true, "7.0.2", false⟩ rfl rfl
    exact (h.2.2 rfl).1

/-- C3 (counterexample): the normalization table's `libLLVM` row is exempt
from both integrity checks: on a directory where the `libLLVM` real file is
absent (not a regular file) and its SONAME-template path is no symlink —
each a condition the claim says is fatal — `normalize_llvm_host_libs`
completes without raising any error. -/
theorem c3_counterexample :
    isfile [("libclang.so.7.0.2", FKind.regular), ("libclang.so.7", FKind.symlink true),
      ("libc++.so.1.0", FKind.regular), ("libc++.so.1", FKind.symlink true),
      ("libc++abi.so.1.0", FKind.regular), ("libc++abi.so.1", FKind.symlink true)]
      "libLLVM-7.0.2svn.so" = false ∧
    islink [("libclang.so.7.0.2", FKind.regular), ("libclang.so.7", FKind.symlink true),
      ("libc++.so.1.0", FKind.regular), ("libc++.so.1", FKind.symlink true),
      ("libc++abi.so.1.0", FKind.regular), ("libc++abi.so.1", FKind.symlink true)]
      "libLLVM-7svn.so" = false ∧
    (normalizeLlvmHostLibs "linux-x86" ⟨"7.0.2", "7"⟩
      [("libclang.so.7.0.2", FKind.regular), ("libclang.so.7", FKind.symlink true),
       ("libc++.so.1.0", FKind.regular), ("libc++.so.1", FKind.symlink true),
       ("libc++abi.so.1.0", FKind.regular), ("libc++abi.so.1", FKind.symlink true)]).2
      = none := by
  decide

/-- C3 (amended): for every library of the fixed linux normalization table
EXCEPT `libLLVM`, normalization verifies that the versioned real file is a
regular file and that the SONAME-named path is a symlink, raising a fatal
integrity error naming the offending path if either check fails, with that
library's directory left untouched at the error (libraries processed
earlier in the table have already been normalized); the `libLLVM` row
performs no checks and no move and only deletes the other files of its
stem; on a successful run, for each of the three checked libraries the real
file has been moved onto the SONAME path and every other file sharing the
library's stem is deleted, so the SONAME-named file is present and is the
only file of that stem. -/
theorem c3_soname_normalization (v : VersionInfo) (fs : FS) :
    (∀ (lib : LibSpec) (g : FS), (lib.name == "libLLVM") = false →
      (isfile g (lib.fmt (getVersions v lib.name).1) = false →
        normalizeOne v lib g =
          (g, some (lib.fmt (getVersions v lib.name).1 ++ " must be a regular file"))) ∧
      (isfile g (lib.fmt (getVersions v lib.name).1) = true →
        islink g (lib.fmt (getVersions v lib.name).2) = false →
        normalizeOne v lib g =
          (g, some (lib.fmt (getVersions v lib.name).2 ++ " must be a symlink"))))
    ∧ (∀ g : FS, normalizeOne v libLLVMSpec g =
        (deleteOthers g "libLLVM" ("libLLVM-" ++ v.shortVersion ++ "svn.so"), none))
    ∧ (isfile fs ("libclang.so." ++ v.shortVersion) = false →
        ((normalizeLlvmHostLibs "linux-x86" v fs).2).isSome = true)
    ∧ (∀ fs', normalizeLlvmHostLibs "linux-x86" v fs = (fs', none) →
        (∀ e ∈ fs', stemMatch "libclang" e.1 = true → e.1 = "libclang.so." ++ v.major) ∧
        (∃ k, (("libclang.so." ++ v.major, k) : String × FKind) ∈ fs') ∧
        (∀ e ∈ fs', stemMatch "libc++" e.1 = true → e.1 = "libc++.so.1") ∧
        (∃ k, (("libc++.so.1", k) : String × FKind) ∈ fs') ∧
        (∀ e ∈ fs', stemMatch "libc++abi" e.1 = true → e.1 = "libc++abi.so.1") ∧
        (∃ k, (("libc++abi.so.1", k) : String × FKind) ∈ fs')) := by
  refine ⟨?_, ?_, ?_, ?_⟩
  · intro lib g hname
    constructor
    · intro hf
      unfold normalizeOne
      rw [hname]
      simp [hf]
    · intro hf hl
      unfold normalizeOne
      rw [hname]
      simp [hf, hl]
  · intro g
    rfl
  · intro hf
    have hlookup : fsLookup (deleteOthers fs "libLLVM"
        ("libLLVM-" ++ v.shortVersion ++ "svn.so")) ("libclang.so." ++ v.shortVersion) =
        fsLookup fs ("libclang.so." ++ v.shortVersion) := by
      unfold deleteOthers
      apply fsLookup_filter
      intro k
      simp [stemMatch_libLLVM_clangName]
    have hf₁ : isfile (deleteOthers fs "libLLVM"
        ("libLLVM-" ++ v.shortVersion ++ "svn.so")) ("libclang.so." ++ v.shortVersion)
        = false := by
      unfold isfile at hf ⊢
      rw [hlookup]
      exact hf
    have h1 : normalizeOne v libLLVMSpec fs =
        (deleteOthers fs "libLLVM" ("libLLVM-" ++ v.shortVersion ++ "svn.so"), none) := rfl
    have herr : normalizeOne v libclangSpec
        (deleteOthers fs "libLLVM" ("libLLVM-" ++ v.shortVersion ++ "svn.so")) =
        (deleteOthers fs "libLLVM" ("libLLVM-" ++ v.shortVersion ++ "svn.so"),
         some ("libclang.so." ++ v.shortVersion ++ " must be a regular file")) := by
      have hgv : getVersions v "libclang" = (v.shortVersion, v.major) := rfl
      unfold normalizeOne
      simp only [libclangSpec, hgv]
      simp [hf₁]
    show (normalizeLibs v linuxLibSpecs fs).2.isSome = true
    rw [show linuxLibSpecs = libLLVMSpec :: libclangSpec :: libcxxSpec :: [libcxxabiSpec]
      from rfl, normalizeLibs_cons_ok v _ _ _ _ h1,
      normalizeLibs_cons_err v _ _ _ _ _ herr]
    rfl
  · intro fs' hrun
    have hrun' : normalizeLibs v linuxLibSpecs fs = (fs', none) := hrun
    obtain ⟨fs₂, fs₃, h2, h3, h4⟩ := normalizeLibs_linux_ok_elim v fs fs' hrun'
    obtain ⟨hf2, hl2, hfs₂⟩ := normalizeOne_ok_elim v libclangSpec _ _ rfl h2
    obtain ⟨hf3, hl3, hfs₃⟩ := normalizeOne_ok_elim v libcxxSpec _ _ rfl h3
    obtain ⟨hf4, hl4, hfs₄⟩ := normalizeOne_ok_elim v libcxxabiSpec _ _ rfl h4
    set fs₁ := deleteOthers fs "libLLVM" ("libLLVM-" ++ v.shortVersion ++ "svn.so")
      with hfs₁def
    have hf2' : isfile fs₁ ("libclang.so." ++ v.shortVersion) = true := hf2
    have hf3' : isfile fs₂ "libc++.so.1.0" = true := hf3
    have hf4' : isfile fs₃ "libc++abi.so.1.0" = true := hf4
    have hfs₂' : fs₂ = deleteOthers (fsMove fs₁ ("libclang.so." ++ v.shortVersion)
        ("libclang.so." ++ v.major)) "libclang" ("libclang.so." ++ v.major) := hfs₂
    have hfs₃' : fs₃ = deleteOthers (fsMove fs₂ "libc++.so.1.0" "libc++.so.1")
        "libc++" "libc++.so.1" := hfs₃
    have hfs₄' : fs' = deleteOthers (fsMove fs₃ "libc++abi.so.1.0" "libc++abi.so.1")
        "libc++abi" "libc++abi.so.1" := hfs₄
    have memClang₂ : ∀ e : String × FKind, e ∈ fs₂ → stemMatch "libclang" e.1 = true →
        e.1 = "libclang.so." ++ v.major := by
      intro e he hstem
      rw [hfs₂'] at he
      exact allMatch_after_move _ _ _ _ _ he hstem
    have memClang₃ : ∀ e : String × FKind, e ∈ fs₃ → stemMatch "libclang" e.1 = true →
        e.1 = "libclang.so." ++ v.major := by
      intro e he hstem
      rw [hfs₃'] at he
      rcases mem_of_mem_deleteOthers_fsMove _ _ _ _ _ _ he with he2 | heq
      · exact memClang₂ e he2 hstem
      · rw [heq] at hstem
        exact absurd hstem (by decide)
    refine ⟨?_, ?_, ?_, ?_, ?_, ?_⟩
    · intro e he hstem
      rw [hfs₄'] at he
      rcases mem_of_mem_deleteOthers_fsMove _ _ _ _ _ _ he with he3 | heq
      · exact memClang₃ e he3 hstem
      · rw [heq] at hstem
        exact absurd hstem (by decide)
    · obtain ⟨k, hk⟩ := soname_mem_after_move fs₁ ("libclang.so." ++ v.shortVersion)
        ("libclang.so." ++ v.major) "libclang" hf2'
      rw [← hfs₂'] at hk
      have hk₃ : (("libclang.so." ++ v.major, k) : String × FKind) ∈ fs₃ := by
        rw [hfs₃']
        refine mem_deleteOthers_fsMove_of _ _ _ _ _ _ hk
          (clangName_bne_cxxReal v.major) (clangName_bne_cxxSoname v.major) ?_
        simp [stemMatch_libcxx_clangName]
      refine ⟨k, ?_⟩
      rw [hfs₄']
      refine mem_deleteOthers_fsMove_of _ _ _ _ _ _ hk₃
        (clangName_bne_abiReal v.major) (clangName_bne_abiSoname v.major) ?_
      simp [stemMatch_libcxxabi_clangName]
    · intro e he hstem
      rw [hfs₄'] at he
      rcases mem_of_mem_deleteOthers_fsMove _ _ _ _ _ _ he with he3 | heq
      · rw [hfs₃'] at he3
        exact allMatch_after_move _ _ _ _ _ he3 hstem
      · rw [heq] at hstem
        exact absurd hstem (by decide)
    · obtain ⟨k, hk⟩ := soname_mem_after_move fs₂ "libc++.so.1.0" "libc++.so.1"
        "libc++" hf3'
      rw [← hfs₃'] at hk
      refine ⟨k, ?_⟩
      rw [hfs₄']
      refine mem_deleteOthers_fsMove_of _ _ _ _ _ _ hk ?_ ?_ ?_
      · show ("libc++.so.1" != "libc++abi.so.1.0") = true
        decide
      · show ("libc++.so.1" != "libc++abi.so.1") = true
        decide
      · show (!(stemMatch "libc++abi" "libc++.so.1" &&
          "libc++.so.1" != "libc++abi.so.1")) = true
        decide
    · intro e he hstem
      rw [hfs₄'] at he
      exact allMatch_after_move _ _ _ _ _ he hstem
    · obtain ⟨k, hk⟩ := soname_mem_after_move fs₃ "libc++abi.so.1.0" "libc++abi.so.1"
        "libc++abi" hf4'
      rw [← hfs₄'] at hk
      exact ⟨k, hk⟩

/-- C3 (witness): the amended statement applied to two concrete
directories: one whose `libclang` real file is missing (the run raises an
error) and one fully well-formed (after the run the three SONAME-named
files are present). -/
theorem c3_soname_normalization_witness :
    (normalizeLlvmHostLibs "linux-x86" ⟨"7.0.2", "7"⟩
      [("libclang.so.7", FKind.symlink true)]).2.isSome = true
    ∧ (∃ k, (("libclang.so.7", k) : String × FKind) ∈
        [("libclang.so.7", FKind.regular), ("libc++.so.1", FKind.regular),
         ("libc++abi.so.1", FKind.regular)]) := by
  constructor
  · have h := c3_soname_normalization ⟨"7.0.2", "7"⟩
      [("libclang.so.7", FKind.symlink true)]
    exact h.2.2.1 (by decide)
  · have h := c3_soname_normalization ⟨"7.0.2", "7"⟩
      [("libclang.so.7.0.2", FKind.regular), ("libclang.so.7", FKind.symlink true),
       ("libc++.so.1.0", FKind.regular), ("libc++.so.1", FKind.symlink true),
       ("libc++abi.so.1.0", FKind.regular), ("libc++abi.so.1", FKind.symlink true)]
    have hrun : normalizeLlvmHostLibs "linux-x86" ⟨"7.0.2", "7"⟩
        [("libclang.so.7.0.2", FKind.regular), ("libclang.so.7", FKind.symlink true),
         ("libc++.so.1.0", FKind.regular), ("libc++.so.1", FKind.symlink true),
         ("libc++abi.so.1.0", FKind.regular), ("libc++abi.so.1", FKind.symlink true)]
        = ([("libclang.so.7", FKind.regular), ("libc++.so.1", FKind.regular),
            ("libc++abi.so.1", FKind.regular)], none) := by
      decide
    exact (h.2.2.2 _ hrun).2.1

/-- C4: stage 2 is never built before stage 1 has reported success (any
stage-2 engine event implies the trace begins with a successful stage-1
engine event); a build-engine failure at any stage or fan-out step is fatal
and non-retried — the trace ends at the single failed invocation, no later
step (in particular no packaging step) is attempted, and the process exits
non-zero; `--skip-build` decouples packaging: no engine invocation occurs
and the host packaging step still runs. -/
theorem c4_stage_ordering_and_failure (args : Args) (w : World) (eng : Nat → Bool) :
    (∀ pd instr ok, Event.engine (.stage2 pd instr) ok ∈ (mainRun args w eng).1 →
      ∃ t, (mainRun args w eng).1 = Event.engine .stage1 true :: t)
    ∧ ((mainRun args w eng).2 = .engineFailure →
      (∀ h, Event.package h ∉ (mainRun args w eng).1)
      ∧ (∃ t₀ s, (mainRun args w eng).1 = t₀ ++ [Event.engine s false]
          ∧ ∀ e ∈ t₀, okEvent e = true)
      ∧ exitCode (mainRun args w eng).2 ≠ 0)
    ∧ (args.skipBuild = true →
      (∀ s ok, Event.engine s ok ∉ (mainRun args w eng).1)
      ∧ (args.skipPackage = false →
          Event.package (buildOsType w.hostIsLinux) ∈ (mainRun args w eng).1)) := by
  refine ⟨?_, ?_, ?_⟩
  · intro pd instr ok hmem
    cases hsb : args.skipBuild
    · obtain ⟨rest, hplan⟩ := mainPlan_build_head args w hsb
      unfold mainRun at hmem ⊢
      rw [hplan] at hmem ⊢
      by_cases h0 : eng 0
      · refine ⟨(runPlan eng rest 1).1, ?_⟩
        simp [runPlan, h0]
      · simp [runPlan, h0] at hmem
    · have hall := mainPlan_skipBuild_no_engine args w hsb
      have hmem' := engineItem_mem_of_engineEvent_mem eng _ 0 _ _ hmem
      rw [List.all_eq_true] at hall
      have := hall _ hmem'
      simp [isEngineItem] at this
  · intro hfail
    refine ⟨?_, ?_, ?_⟩
    · exact no_package_in_failed_run eng _ 0 (mainPlan_noEngineAfterPack args w) hfail
    · exact failed_run_decomp eng _ 0 hfail
    · rw [hfail]
      simp [exitCode]
  · intro hsb
    constructor
    · intro s ok hmem
      have hall := mainPlan_skipBuild_no_engine args w hsb
      have hmem' := engineItem_mem_of_engineEvent_mem eng _ 0 _ _ hmem
      rw [List.all_eq_true] at hall
      have := hall _ hmem'
      simp [isEngineItem] at this
    · intro hsp
      obtain ⟨rest, hplan⟩ := mainPlan_package_head args w hsb hsp
      unfold mainRun
      rw [hplan]
      simp [runPlan]

/-- C4 (witness): the theorem applied to a concrete run whose engine fails
at the second invocation (stage 2): the run reports an engine failure, no
packaging event occurs, and the exit code is non-zero. -/
theorem c4_stage_ordering_and_failure_witness :
    (mainRun ⟨"dev", false, false, false, false, false, false, false, false, false⟩
        ⟨true, "7.0.2", false⟩ (fun n => n == 0)).2 = .engineFailure
    ∧ (∀ h, Event.package h ∉
        (mainRun ⟨"dev", false, false, false, false, false, false, false, false, false⟩
          ⟨true, "7.0.2", false⟩ (fun n => n == 0)).1)
    ∧ exitCode
        (mainRun ⟨"dev", false, false, false, false, false, false, false, false, false⟩
          ⟨true, "7.0.2", false⟩ (fun n => n == 0)).2 ≠ 0 := by
  have hfail : (mainRun ⟨"dev", false, false, false, false, false, false, false, false,
      false⟩ ⟨true, "7.0.2", false⟩ (fun n => n == 0)).2 = .engineFailure := by
    rfl
  have h := c4_stage_ordering_and_failure
    ⟨"dev", false, false, false, false, false, false, false, false, false⟩
    ⟨true, "7.0.2", false⟩ (fun n => n == 0)
  exact ⟨hfail, (h.2.1 hfail).1, (h.2.1 hfail).2.2⟩

/-- C5 (counterexample): the matrix generator cannot fail on an unknown
architecture id — it has no error outcome at all and produces configurations
for exactly its fixed six-architecture table — and its architecture-keyed
helper `android_api` silently yields the default API level `'21'` for the
unknown id `riscv64` instead of raising anything. -/
theorem c5_counterexample :
    androidApi "riscv64" false = "21"
    ∧ (crossCompileConfigs "linux-x86" (outPath ["stage2-install"]) false).map
        (fun c => c.arch) = ["arm", "aarch64", "x86_64", "i386", "mips", "mips64"] := by
  constructor
  · rfl
  · rfl

/-- C5 (amended): the Configuration Matrix Generator takes no architecture
argument and cannot be asked for an architecture outside its fixed table:
it yields configurations for exactly the six ids, in table order, and no
error path exists; its per-architecture API-level helper silently falls
back to the default `'21'` (or `'26'` in platform mode) for every id
outside its known set, rather than failing. -/
theorem c5_no_unknown_arch_error (osType stage2Install : String) (platform : Bool) :
    ((crossCompileConfigs osType stage2Install platform).map (fun c => c.arch) =
      ["arm", "aarch64", "x86_64", "i386", "mips", "mips64"])
    ∧ (∀ a : String, a ∉ (["arm", "i386", "mips"] : List String) →
        androidApi a false = "21" ∧ androidApi a true = "26") := by
  constructor
  · cases platform <;> rfl
  · intro a ha
    exact ⟨by simp [androidApi, ha], rfl⟩

/-- C5 (witness): the amended statement applied to the unknown id
`riscv64`. -/
theorem c5_no_unknown_arch_error_witness :
    androidApi "riscv64" false = "21" ∧ androidApi "riscv64" true = "26" := by
  have h := c5_no_unknown_arch_error "linux-x86" (outPath ["stage2-install"]) false
  exact h.2 "riscv64" (by decide)

/-- C6: for every configuration the matrix generator produces, the
linker-flag list contains `-Wl,--hash-style=both` if and only if the
architecture is neither `mips` nor `mips64`. -/
theorem c6_hash_style_flag (osType stage2Install : String) (platform : Bool)
    (cfg : CrossConfig)
    (hmem : cfg ∈ crossCompileConfigs osType stage2Install platform) :
    "-Wl,--hash-style=both" ∈ cfg.ldflags ↔
      (cfg.arch ≠ "mips" ∧ cfg.arch ≠ "mips64") := by
  cases platform <;>
  · simp only [crossCompileConfigs, crossCompileEntries, List.map_cons, List.map_nil,
      List.mem_cons, List.not_mem_nil, or_false] at hmem
    rcases hmem with rfl | rfl | rfl | rfl | rfl | rfl <;>
      simp [crossConfigOf, List.mem_append, List.mem_cons,
        eq_comm (a := "-Wl,--hash-style=both"), dashL_ne_hashFlag, sysroot_ne_hashFlag]

/-- C6 (witness): the theorem applied to the `arm` configuration (flag
present) and the `mips` configuration (flag absent) of a concrete matrix. -/
theorem c6_hash_style_flag_witness :
    "-Wl,--hash-style=both" ∈ (crossConfigOf "linux-x86" (outPath ["stage2-install"])
      false ⟨"arm", "arm", "arm/arm-linux-androideabi-4.9/arm-linux-androideabi",
        "arm-linux-android", "-march=armv7-a"⟩).ldflags
    ∧ "-Wl,--hash-style=both" ∉ (crossConfigOf "linux-x86" (outPath ["stage2-install"])
      false ⟨"mips", "mips", "mips/mips64el-linux-android-4.9/mips64el-linux-android",
        "mipsel-linux-android", "-m32"⟩).ldflags := by
  constructor
  · have h := c6_hash_style_flag "linux-x86" (outPath ["stage2-install"]) false
      (crossConfigOf "linux-x86" (outPath ["stage2-install"]) false
        ⟨"arm", "arm", "arm/arm-linux-androideabi-4.9/arm-linux-androideabi",
         "arm-linux-android", "-march=armv7-a"⟩)
      (by simp [crossCompileConfigs, crossCompileEntries])
    exact h.mpr (by decide)
  · intro hmemflag
    have h := c6_hash_style_flag "linux-x86" (outPath ["stage2-install"]) false
      (crossConfigOf "linux-x86" (outPath ["stage2-install"]) false
        ⟨"mips", "mips", "mips/mips64el-linux-android-4.9/mips64el-linux-android",
         "mipsel-linux-android", "-m32"⟩)
      (by simp [crossCompileConfigs, crossCompileEntries])
    exact (h.mp hmemflag).1 rfl

/-- C7: the per-architecture install subdirectory of the runtime fan-out is
computed by `arch_from_triple` (first triple component, `i686` mapped back
to `i386`): the matrix's (architecture id, subdirectory) pairs are fixed,
the subdirectory differs from the architecture id for `mips` and `mips64`
(`mipsel`, `mips64el`), both the libfuzzer and libomp installs (platform
mode) land in `clang_resource_dir version subdir`, and the fuzzing
runtime's static library for architecture `i386` is named with `i686`. -/
theorem c7_arch_subdir_remapping (v osType stage2Install : String) (platform : Bool) :
    ((crossCompileConfigs osType stage2Install platform).map
      (fun c => (c.arch, archFromTriple c.llvmTriple)) =
      [("arm", "arm"), ("aarch64", "aarch64"), ("x86_64", "x86_64"),
       ("i386", "i386"), ("mips", "mipsel"), ("mips64", "mips64el")])
    ∧ ((crossCompileConfigs osType stage2Install platform).map
        (fun c => libfuzzerLibSubdir v c.llvmTriple false) =
       (crossCompileConfigs osType stage2Install platform).map
        (fun c => clangResourceDir v (archFromTriple c.llvmTriple)))
    ∧ ((crossCompileConfigs osType stage2Install platform).map
        (fun c => libompLibSubdir v c.llvmTriple false) =
       (crossCompileConfigs osType stage2Install platform).map
        (fun c => clangResourceDir v (archFromTriple c.llvmTriple)))
    ∧ (∃ c ∈ crossCompileConfigs osType stage2Install platform,
        archFromTriple c.llvmTriple ≠ c.arch)
    ∧ libfuzzerStaticLibFilename "i386" = "libclang_rt.fuzzer-i686-android.a" := by
  refine ⟨?_, ?_, ?_, ?_, rfl⟩
  · cases platform <;> rfl
  · cases platform <;> rfl
  · cases platform <;> rfl
  · refine ⟨crossConfigOf osType stage2Install platform
      ⟨"mips", "mips", "mips/mips64el-linux-android-4.9/mips64el-linux-android",
       "mipsel-linux-android", "-m32"⟩, ?_, ?_⟩
    · simp [crossCompileConfigs, crossCompileEntries]
    · show ("mipsel" : String) ≠ "mips"
      decide

set_option maxHeartbeats 3000000 in
/-- C8: when stage 2 is built in instrumented mode (and hence without a
profile file, the combination being rejected), the configuration handed to
the build engine sets `LLVM_BUILD_INSTRUMENTED='ON'`,
`LLVM_ENABLE_LIBCXX='OFF'` and `LLVM_BUILD_RUNTIME='OFF'`; without
instrumented mode the latter two keep their stage-2 defaults of `'ON'` (and
`LLVM_BUILD_INSTRUMENTED` is not set at all), whatever the other flags. -/
theorem c8_instrumented_stage2_defines (ev : ExternalVersions)
    (s1 s2 tg bn : String) (lld ea dbg lin dar : Bool) :
    ((stage2FinalDefines ev s1 s2 tg bn lld ea dbg true none lin dar).map
      (fun d => (dictLookup d "LLVM_BUILD_INSTRUMENTED",
                 dictLookup d "LLVM_ENABLE_LIBCXX",
                 dictLookup d "LLVM_BUILD_RUNTIME")) =
      .ok (some "ON", some "OFF", some "OFF"))
    ∧ (∀ pd : Option String,
      (stage2FinalDefines ev s1 s2 tg bn lld ea dbg false pd lin dar).map
        (fun d => (dictLookup d "LLVM_ENABLE_LIBCXX",
                   dictLookup d "LLVM_BUILD_RUNTIME",
                   dictLookup d "LLVM_BUILD_INSTRUMENTED")) =
      .ok (some "ON", some "ON", none)) := by
  constructor
  · cases lld <;> cases ea <;> cases dbg <;> cases lin <;> cases dar <;>
      simp [stage2FinalDefines, stage2ExtraDefines, buildLlvmCmakeDefines,
        baseCmakeDefines, dictUpdate, dictSet, Except.map, dictLookup_dictSet,
        dictLookup]
  · intro pd
    cases pd <;>
      cases lld <;> cases ea <;> cases dbg <;> cases lin <;> cases dar <;>
      simp [stage2FinalDefines, stage2ExtraDefines, buildLlvmCmakeDefines,
        baseCmakeDefines, dictUpdate, dictSet, Except.map, dictLookup_dictSet,
        dictLookup]

/-- C9 (counterexample): the deliberate libcxx skip in `build_runtimes` is
NOT accompanied by any runtime log note: no item of the fan-out — neither an
engine invocation nor a log note — refers to the libcxx build (the call is
simply commented out in the source). -/
theorem c9_counterexample : ¬ ∃ i ∈ runtimesItems, mentionsLibcxx i = true := by
  decide

/-- C9 (amended): the runtime fan-out never invokes a build of the C++
standard-library runtime: `build_runtimes` performs the compiler-rt build
for each of the six architectures, the host-i686 compiler-rt build, the
libfuzzer and libomp builds each in platform and NDK-libc++ modes, and the
asan test stubs and map files; the libcxx build is a deliberate no-op — its
call is commented out — contributing no engine invocation and no log note,
and no run of the pipeline ever produces a libcxx engine event. -/
theorem c9_libcxx_never_built :
    (∀ a ∈ matrixArchs,
      Item.engine (.crt a) ∈ runtimesItems ∧
      Item.engine (.libfuzzer a false) ∈ runtimesItems ∧
      Item.engine (.libfuzzer a true) ∈ runtimesItems ∧
      Item.engine (.libomp a false) ∈ runtimesItems ∧
      Item.engine (.libomp a true) ∈ runtimesItems)
    ∧ Item.engine .crtHostI686 ∈ runtimesItems
    ∧ Item.asanTest ∈ runtimesItems
    ∧ Item.asanMapFiles ∈ runtimesItems
    ∧ (∀ i ∈ runtimesItems, mentionsLibcxx i = false)
    ∧ (∀ (args : Args) (w : World) (eng : Nat → Bool) (a : String) (ok : Bool),
        Event.engine (.libcxx a) ok ∉ (mainRun args w eng).1) := by
  refine ⟨by decide, by decide, by decide, by decide, by decide, ?_⟩
  intro args w eng a ok h
  have hmem := engineItem_mem_of_engineEvent_mem eng _ 0 _ _ h
  have hall := mainPlan_no_libcxx args w
  rw [List.all_eq_true] at hall
  have := hall _ hmem
  simp [mentionsLibcxx] at this

/-- C9 (witness): the amended statement applied to the `arm` architecture
of the fixed matrix. -/
theorem c9_libcxx_never_built_witness :
    Item.engine (.crt "arm") ∈ runtimesItems ∧
    mentionsLibcxx (Item.engine (.crt "arm")) = false := by
  have h := c9_libcxx_never_built
  exact ⟨(h.1 "arm" (by decide)).1, h.2.2.2.2.1 _ (h.1 "arm" (by decide)).1⟩

/-- C10: the final configuration `build_llvm` hands to the build engine
maps every key present in `extra_defines` to the `extra_defines` value,
overriding the base defaults, and every base-define key absent from
`extra_defines` keeps its base-define value.  (`extra_defines` models a
Python dict, so its keys are distinct.) -/
theorem c10_extra_defines_override (ev : ExternalVersions)
    (targets installDir buildName : String) (extra : Defines)
    (he : (extra.map Prod.fst).Nodup) :
    (∀ k v, dictLookup extra k = some v →
      dictLookup (buildLlvmCmakeDefines ev targets installDir buildName (some extra)) k
        = some v)
    ∧ (∀ k, dictLookup extra k = none →
      (dictLookup (baseCmakeDefines ev) k).isSome →
      dictLookup (buildLlvmCmakeDefines ev targets installDir buildName (some extra)) k
        = dictLookup (baseCmakeDefines ev) k) := by
  constructor
  · intro k v hk
    simp [buildLlvmCmakeDefines, dictLookup_dictUpdate _ _ he, hk]
  · intro k hk hbase
    have hmem := mem_keys_of_dictLookup_isSome _ _ hbase
    have hkeys : (baseCmakeDefines ev).map Prod.fst =
        ["CMAKE_BUILD_TYPE", "LLVM_ENABLE_ASSERTIONS", "LLVM_ENABLE_THREADS",
         "LLVM_LIBDIR_SUFFIX", "LLVM_VERSION_PATCH", "CLANG_VERSION_PATCHLEVEL",
         "CLANG_REPOSITORY_STRING", "LLVM_REPOSITORY_STRING"] := rfl
    rw [hkeys] at hmem
    simp only [buildLlvmCmakeDefines, dictLookup_dictUpdate _ _ he, hk]
    fin_cases hmem <;> simp [dictLookup_dictSet]

/-- C10 (witness): the theorem applied to the debug stage-2 scenario: the
extra define `CMAKE_BUILD_TYPE='Debug'` overrides the base `'Release'`,
while the untouched base key `LLVM_ENABLE_THREADS` keeps its base value. -/
theorem c10_extra_defines_override_witness :
    dictLookup (buildLlvmCmakeDefines ⟨"6", "4691093"⟩ "X86"
      (outPath ["stage2-install"]) "dev" (some [("CMAKE_BUILD_TYPE", "Debug")]))
      "CMAKE_BUILD_TYPE" = some "Debug"
    ∧ dictLookup (buildLlvmCmakeDefines ⟨"6", "4691093"⟩ "X86"
      (outPath ["stage2-install"]) "dev" (some [("CMAKE_BUILD_TYPE", "Debug")]))
      "LLVM_ENABLE_THREADS" =
      dictLookup (baseCmakeDefines ⟨"6", "4691093"⟩) "LLVM_ENABLE_THREADS" := by
  have h := c10_extra_defines_override ⟨"6", "4691093"⟩ "X86"
    (outPath ["stage2-install"]) "dev" [("CMAKE_BUILD_TYPE", "Debug")] (by decide)
  exact ⟨h.1 "CMAKE_BUILD_TYPE" "Debug" rfl, h.2 "LLVM_ENABLE_THREADS" rfl (by decide)⟩

end LlvmAndroid
